import Mathlib

/-
Shallow embedding of the PubSubSensor firmware sketches.

Sources embedded here:
- src/examples/arduino/accelerometer_and_thermistor.ino : the command-gated
  sketch with two thermistor channels (A0, A1) and a KX224 accelerometer.
- src/unnamed/part_000 : the continuous JSON sketch (accelerometer only,
  Serial.println).
- src/unnamed/part_001 : the continuous JSON sketch with one thermistor
  channel, emitting with Serial.print (no newline).

Doubles are modelled as real numbers; C pow/log/exp become Real.rpow,
Real.log, Real.exp.  Serial output is modelled as a list of abstract
emissions: the payload carries the numeric values that the C code renders
with String(double), and the `newline` flag records println vs print.
Serial.read is modelled as an `Option ℕ` byte (none = the -1 "no data"
sentinel of the non-blocking read); the KX224 get_val call is modelled as
an `Option Vec3` (some v = success writing v into the output array,
none = a failed transaction that leaves the array untouched, which is the
driver behaviour the sketch relies on since it ignores the return code).
-/

namespace PubSubSensor

/-- The 3-axis accelerometer sample, `float accelerometer_value[3]`. -/
abbrev Vec3 : Type := ℝ × ℝ × ℝ

/-- Abstract payload of one serial write: what `send_data` holds when it is
written. `temp t` stands for `String(T)` of the double `t`; `vecCSV` for the
comma-separated triple; `vecJSON` for the JSON object; `initFail` for the
literal `"KX224 initialization failed"` diagnostic. -/
inductive Payload where
  | empty : Payload
  | temp : ℝ → Payload
  | vecCSV : ℝ → ℝ → ℝ → Payload
  | vecJSON : ℝ → ℝ → ℝ → Payload
  | initFail : Payload

/-- One write to the serial output channel: the payload, and whether it was
emitted with `Serial.println` (`newline = true`) or `Serial.print`
(`newline = false`). -/
structure Emission where
  payload : Payload
  newline : Bool

/-- Observable actions of one loop iteration of the command sketch:
the accelerometer bus transaction, the thermistor computation of a channel,
and serial emissions. -/
inductive Event where
  | pollAccel : Event
  | computeTemp : ℕ → Event
  | emit : Emission → Event

/-- `Vout = analogRead(ch) * 5.0 / 1024.0` (accelerometer_and_thermistor.ino
line 45/50, part_001 line 34). -/
noncomputable def voutOf (raw : ℕ) : ℝ := (raw : ℝ) * 5.0 / 1024.0

/-- `R1 = (5.0 * 4.7) / Vout - 4.7` (line 46/51). -/
noncomputable def r1Of (raw : ℕ) : ℝ := (5.0 * 4.7) / voutOf raw - 4.7

/-- `B = 3452.9 * pow(R1, -0.012329)` (line 47/52). -/
noncomputable def bOf (raw : ℕ) : ℝ := 3452.9 * r1Of raw ^ (-0.012329 : ℝ)

/-- `T = B / log(R1 * exp(B / (25 + 273.15)) / 10) - 273.15` (line 48/53). -/
noncomputable def tOf (raw : ℕ) : ℝ :=
  bOf raw / Real.log (r1Of raw * Real.exp (bOf raw / (25 + 273.15)) / 10) - 273.15

/-- Spec §4.1 step 1: `outputVoltage = rawSample * supplyVoltage / 1024`
with supplyVoltage = 5.0. -/
noncomputable def specOutputVoltage (raw : ℕ) : ℝ := (raw : ℝ) * 5.0 / 1024

/-- Spec §4.1 step 2:
`resistance = (supplyVoltage * seriesResistanceOhms) / outputVoltage - seriesResistanceOhms`
with seriesResistanceOhms = 4.7. -/
noncomputable def specResistance (raw : ℕ) : ℝ :=
  (5.0 * 4.7) / specOutputVoltage raw - 4.7

/-- Spec §4.1 step 3: `bEffective = bCoefficient * resistance ^ (-0.012329)`
with bCoefficient = 3452.9. -/
noncomputable def specBEffective (raw : ℕ) : ℝ :=
  3452.9 * specResistance raw ^ (-0.012329 : ℝ)

/-- Spec §4.1 step 4:
`temperatureCelsius = bEffective / ln(resistance * exp(bEffective / referenceTemperatureKelvin) / divisorConstant) - 273.15`
with referenceTemperatureKelvin = 298.15 and divisorConstant = 10. -/
noncomputable def specTempCelsius (raw : ℕ) : ℝ :=
  specBEffective raw /
    Real.log (specResistance raw * Real.exp (specBEffective raw / 298.15) / 10) - 273.15

/-- The global mutable state of the command sketch
(accelerometer_and_thermistor.ino lines 9-20). -/
structure St where
  Vout : ℝ
  R1 : ℝ
  B : ℝ
  T : ℝ
  Vout_2 : ℝ
  R1_2 : ℝ
  B_2 : ℝ
  T_2 : ℝ
  accelerometer_value : Vec3
  send_data : Payload
  read_data : Option ℕ

/-- The command-dispatch chain of the command sketch
(accelerometer_and_thermistor.ino lines 64-83): `'1'` = byte 49 emits
`String(T)`, `'2'` = byte 50 emits `String(T_2)`, `'5'` = byte 53 emits the
comma-separated accelerometer triple, every other byte (and the no-data
sentinel) does nothing. -/
def dispatch (s : St) : St × List Emission :=
  if s.read_data = some 49 then
    let s1 : St := { s with send_data := Payload.temp s.T }
    (s1, [⟨s1.send_data, true⟩])
  else if s.read_data = some 50 then
    let s1 : St := { s with send_data := Payload.temp s.T_2 }
    (s1, [⟨s1.send_data, true⟩])
  else if s.read_data = some 53 then
    let s1 : St :=
      { s with send_data := (Payload.vecCSV s.accelerometer_value.1
          s.accelerometer_value.2.1 s.accelerometer_value.2.2) }
    (s1, [⟨s1.send_data, true⟩])
  else (s, [])

/-- The acquisition phase of one iteration of `loop()` of the command sketch
(accelerometer_and_thermistor.ino lines 41-53): store the byte delivered by
`Serial.read()` (`inp`, none = no data) in `read_data`, perform the KX224
`get_val` transaction (`poll`; on failure the array is left untouched), and
recompute both thermistor channels from the raw ADC samples `a0` =
`analogRead(0)` and `a1` = `analogRead(1)`. -/
noncomputable def sense (inp : Option ℕ) (poll : Option Vec3) (a0 a1 : ℕ)
    (s : St) : St :=
  { s with
    read_data := inp,
    accelerometer_value := poll.getD s.accelerometer_value,
    Vout := voutOf a0, R1 := r1Of a0, B := bOf a0, T := tOf a0,
    Vout_2 := voutOf a1, R1_2 := r1Of a1, B_2 := bOf a1, T_2 := tOf a1 }

/-- One whole iteration of `loop()` of the command sketch
(accelerometer_and_thermistor.ino lines 39-83): the acquisition phase —
which runs unconditionally every cycle — followed by the command dispatch.
The event trace records the accelerometer transaction, the two thermistor
computations, and the emissions of the dispatch. -/
noncomputable def cycleCmd (inp : Option ℕ) (poll : Option Vec3) (a0 a1 : ℕ)
    (s : St) : St × List Event :=
  let d := dispatch (sense inp poll a0 a1 s)
  (d.1, [Event.pollAccel, Event.computeTemp 1, Event.computeTemp 2] ++
    d.2.map Event.emit)

/-- Non-blocking `Serial.read()` against a pending-byte buffer: returns the
head byte (or none) and the remaining buffer. -/
def serialRead : List ℕ → Option ℕ × List ℕ
  | [] => (none, [])
  | b :: rest => (some b, rest)

/-- One loop iteration fed from a pending-byte input buffer. -/
noncomputable def cycleBuf (buf : List ℕ) (poll : Option Vec3) (a0 a1 : ℕ)
    (s : St) : List ℕ × St × List Event :=
  let r := serialRead buf
  let c := cycleCmd r.1 poll a0 a1 s
  (r.2, c.1, c.2)

/-- The per-cycle environment inputs of the command sketch. -/
structure CycleIn where
  inp : Option ℕ
  poll : Option Vec3
  a0 : ℕ
  a1 : ℕ

/-- The emissions contained in an event trace. -/
def emitsOf (evs : List Event) : List Emission :=
  evs.filterMap (fun e =>
    match e with
    | Event.emit m => some m
    | _ => none)

/-- Run the command sketch's loop over a finite list of per-cycle inputs,
collecting the event trace. -/
noncomputable def run : List CycleIn → St → St × List Event
  | [], s => (s, [])
  | c :: cs, s =>
    let r := cycleCmd c.inp c.poll c.a0 c.a1 s
    let r2 := run cs r.1
    (r2.1, r.2 ++ r2.2)

/-- Run the loop, recording for each cycle its input byte together with the
emissions of that cycle. -/
noncomputable def runCycles : List CycleIn → St → List (Option ℕ × List Emission)
  | [], _ => []
  | c :: cs, s =>
    let r := cycleCmd c.inp c.poll c.a0 c.a1 s
    (c.inp, emitsOf r.2) :: runCycles cs r.1

/-- Recognizer of the accelerometer bus transaction event. -/
def isPoll : Event → Bool
  | Event.pollAccel => true
  | _ => false

/-- The result of the last successful accelerometer poll among a list of
cycle inputs, if any. -/
def lastPoll : List CycleIn → Option Vec3
  | [] => none
  | c :: cs =>
    match lastPoll cs with
    | some v => some v
    | none => c.poll

/-- `setup()` of the command sketch (lines 24-37): on a nonzero init return
code the diagnostic line is printed; the loop is entered either way. -/
def setup (rc : ℕ) : List Emission :=
  if rc ≠ 0 then [⟨Payload.initFail, true⟩] else []

/-- Full program output: the setup phase emissions followed by the
emissions of the main loop. The loop takes no input from the init return
code. -/
noncomputable def programEmissions (rc : ℕ) (ins : List CycleIn) (s : St) :
    List Emission :=
  setup rc ++ emitsOf (run ins s).2

/-- Two cycle inputs that agree on everything except channel 2's raw ADC
sample. -/
def sameButA1 (c c' : CycleIn) : Prop :=
  c.inp = c'.inp ∧ c.poll = c'.poll ∧ c.a0 = c'.a0

/-- Two cycle inputs that agree on everything except channel 1's raw ADC
sample. -/
def sameButA0 (c c' : CycleIn) : Prop :=
  c.inp = c'.inp ∧ c.poll = c'.poll ∧ c.a1 = c'.a1

/-- The per-cycle emission lists of exactly the cycles whose input byte was
`b`. -/
noncomputable def respOf (b : ℕ) (ins : List CycleIn) (s : St) :
    List (List Emission) :=
  (runCycles ins s).filterMap (fun p => if p.1 = some b then some p.2 else none)

/-- State of the continuous JSON sketch src/unnamed/part_000 (lines 4-5). -/
structure St0 where
  accelerometer_value : Vec3
  send_data : Payload

/-- One iteration of `loop()` of src/unnamed/part_000 (lines 22-36):
poll the accelerometer, build the JSON triple, `Serial.println` it. -/
def cycleJson (poll : Option Vec3) (s : St0) : St0 × List Emission :=
  let accel := poll.getD s.accelerometer_value
  let send := Payload.vecJSON accel.1 accel.2.1 accel.2.2
  ({ accelerometer_value := accel, send_data := send }, [⟨send, true⟩])

/-- State of the continuous sketch src/unnamed/part_001 (lines 7-12). -/
structure St1 where
  Vout : ℝ
  R1 : ℝ
  B : ℝ
  T : ℝ
  accelerometer_value : Vec3
  send_data : Payload

/-- One iteration of `loop()` of src/unnamed/part_001 (lines 30-48):
poll the accelerometer, compute the thermistor temperature, build the JSON
triple, and emit it with `Serial.print` — no line terminator. -/
noncomputable def cycleJsonPrint (poll : Option Vec3) (a0 : ℕ) (s : St1) :
    St1 × List Emission :=
  let accel := poll.getD s.accelerometer_value
  let send := Payload.vecJSON accel.1 accel.2.1 accel.2.2
  ({ Vout := voutOf a0, R1 := r1Of a0, B := bOf a0, T := tOf a0,
     accelerometer_value := accel, send_data := send }, [⟨send, false⟩])

/-- A concrete initial state of the command sketch (all globals
zero-initialized, as C statics are). -/
noncomputable def stInit : St :=
  { Vout := 0, R1 := 0, B := 0, T := 0,
    Vout_2 := 0, R1_2 := 0, B_2 := 0, T_2 := 0,
    accelerometer_value := (0, 0, 0), send_data := Payload.empty,
    read_data := none }

/-- A concrete initial state of the part_001 sketch. -/
noncomputable def st1Init : St1 :=
  { Vout := 0, R1 := 0, B := 0, T := 0,
    accelerometer_value := (0, 0, 0), send_data := Payload.empty }

/- ------------------------------------------------------------------ -/
/- Helper lemmas                                                       -/
/- ------------------------------------------------------------------ -/

theorem sense_read_data (inp : Option ℕ) (poll : Option Vec3) (a0 a1 : ℕ)
    (s : St) : (sense inp poll a0 a1 s).read_data = inp := rfl

theorem sense_accel (inp : Option ℕ) (poll : Option Vec3) (a0 a1 : ℕ)
    (s : St) :
    (sense inp poll a0 a1 s).accelerometer_value =
      poll.getD s.accelerometer_value := rfl

theorem dispatch_other (s : St) (h1 : s.read_data ≠ some 49)
    (h2 : s.read_data ≠ some 50) (h3 : s.read_data ≠ some 53) :
    dispatch s = (s, []) := by
  unfold dispatch
  rw [if_neg h1, if_neg h2, if_neg h3]

theorem dispatch_accel (s : St) :
    (dispatch s).1.accelerometer_value = s.accelerometer_value := by
  unfold dispatch
  split
  · rfl
  · split
    · rfl
    · split
      · rfl
      · rfl

theorem dispatch_emissions_len (s : St) : (dispatch s).2.length ≤ 1 := by
  unfold dispatch
  split
  · simp
  · split
    · simp
    · split
      · simp
      · simp

theorem dispatch_emissions_newline (s : St) :
    (dispatch s).2.all (fun e => e.newline) = true := by
  unfold dispatch
  split
  · rfl
  · split
    · rfl
    · split
      · rfl
      · rfl

theorem emitsOf_cycle_events (l : List Emission) :
    emitsOf ([Event.pollAccel, Event.computeTemp 1, Event.computeTemp 2] ++
      l.map Event.emit) = l := by
  induction l with
  | nil => rfl
  | cons a t ih => simpa [emitsOf, List.filterMap_cons] using ih

theorem emitsOf_cycleCmd (inp : Option ℕ) (poll : Option Vec3) (a0 a1 : ℕ)
    (s : St) :
    emitsOf (cycleCmd inp poll a0 a1 s).2 =
      (dispatch (sense inp poll a0 a1 s)).2 :=
  emitsOf_cycle_events _

theorem cycleCmd_state (inp : Option ℕ) (poll : Option Vec3) (a0 a1 : ℕ)
    (s : St) :
    (cycleCmd inp poll a0 a1 s).1 = (dispatch (sense inp poll a0 a1 s)).1 :=
  rfl

theorem cycleCmd_accel (inp : Option ℕ) (poll : Option Vec3) (a0 a1 : ℕ)
    (s : St) :
    (cycleCmd inp poll a0 a1 s).1.accelerometer_value =
      poll.getD s.accelerometer_value := by
  rw [cycleCmd_state, dispatch_accel, sense_accel]

theorem run_accel (ins : List CycleIn) (s : St) :
    (run ins s).1.accelerometer_value =
      (lastPoll ins).getD s.accelerometer_value := by
  induction ins generalizing s with
  | nil => rfl
  | cons c cs ih =>
    show (run cs (cycleCmd c.inp c.poll c.a0 c.a1 s).1).1.accelerometer_value = _
    rw [ih, cycleCmd_accel]
    cases h : lastPoll cs with
    | some v => simp [lastPoll, h]
    | none => simp [lastPoll, h]

theorem countP_isPoll_cycle (inp : Option ℕ) (poll : Option Vec3) (a0 a1 : ℕ)
    (s : St) : List.countP isPoll (cycleCmd inp poll a0 a1 s).2 = 1 := by
  show List.countP isPoll
    ([Event.pollAccel, Event.computeTemp 1, Event.computeTemp 2] ++
      (dispatch (sense inp poll a0 a1 s)).2.map Event.emit) = 1
  rw [List.countP_append]
  have h2 : List.countP isPoll
      ((dispatch (sense inp poll a0 a1 s)).2.map Event.emit) = 0 := by
    rw [List.countP_eq_zero]
    intro e he
    obtain ⟨m, _, rfl⟩ := List.mem_map.mp he
    simp [isPoll]
  rw [h2]
  rfl

theorem run_countP (ins : List CycleIn) (s : St) :
    List.countP isPoll (run ins s).2 = ins.length := by
  induction ins generalizing s with
  | nil => rfl
  | cons c cs ih =>
    show List.countP isPoll ((cycleCmd c.inp c.poll c.a0 c.a1 s).2 ++
      (run cs (cycleCmd c.inp c.poll c.a0 c.a1 s).1).2) = (c :: cs).length
    rw [List.countP_append, countP_isPoll_cycle, ih]
    simp [Nat.add_comm]

theorem emits_cycle_one (poll : Option Vec3) (a0 a1 : ℕ) (s : St) :
    emitsOf (cycleCmd (some 49) poll a0 a1 s).2 =
      [⟨Payload.temp (tOf a0), true⟩] := rfl

theorem emits_cycle_two (poll : Option Vec3) (a0 a1 : ℕ) (s : St) :
    emitsOf (cycleCmd (some 50) poll a0 a1 s).2 =
      [⟨Payload.temp (tOf a1), true⟩] := rfl

theorem runCycles_cons (c : CycleIn) (cs : List CycleIn) (s : St) :
    runCycles (c :: cs) s =
      (c.inp, emitsOf (cycleCmd c.inp c.poll c.a0 c.a1 s).2) ::
        runCycles cs (cycleCmd c.inp c.poll c.a0 c.a1 s).1 := rfl

theorem respOf_cons (b : ℕ) (c : CycleIn) (cs : List CycleIn) (s : St) :
    respOf b (c :: cs) s =
      (if c.inp = some b
        then [emitsOf (cycleCmd c.inp c.poll c.a0 c.a1 s).2]
        else []) ++ respOf b cs (cycleCmd c.inp c.poll c.a0 c.a1 s).1 := by
  by_cases h : c.inp = some b
  · simp [respOf, runCycles_cons, List.filterMap_cons, h]
  · simp [respOf, runCycles_cons, List.filterMap_cons, h]

theorem respOf_49_eq (ins ins' : List CycleIn)
    (h : List.Forall₂ sameButA1 ins ins') :
    ∀ s s' : St, respOf 49 ins s = respOf 49 ins' s' := by
  induction h with
  | nil => intro s s'; rfl
  | @cons a b l1 l2 hab htail ih =>
    intro s s'
    obtain ⟨hinp, hpoll, ha0⟩ := hab
    rw [respOf_cons, respOf_cons,
      ih (cycleCmd a.inp a.poll a.a0 a.a1 s).1 (cycleCmd b.inp b.poll b.a0 b.a1 s').1]
    congr 1
    by_cases hca : a.inp = some 49
    · have hcb : b.inp = some 49 := hinp ▸ hca
      rw [if_pos hca, if_pos hcb, hca, hcb, hpoll, ha0, emits_cycle_one,
        emits_cycle_one]
    · have hcb : ¬b.inp = some 49 := fun hh => hca (hinp.trans hh)
      rw [if_neg hca, if_neg hcb]

theorem respOf_50_eq (ins ins' : List CycleIn)
    (h : List.Forall₂ sameButA0 ins ins') :
    ∀ s s' : St, respOf 50 ins s = respOf 50 ins' s' := by
  induction h with
  | nil => intro s s'; rfl
  | @cons a b l1 l2 hab htail ih =>
    intro s s'
    obtain ⟨hinp, hpoll, ha1⟩ := hab
    rw [respOf_cons, respOf_cons,
      ih (cycleCmd a.inp a.poll a.a0 a.a1 s).1 (cycleCmd b.inp b.poll b.a0 b.a1 s').1]
    congr 1
    by_cases hca : a.inp = some 50
    · have hcb : b.inp = some 50 := hinp ▸ hca
      rw [if_pos hca, if_pos hcb, hca, hcb, hpoll, ha1, emits_cycle_two,
        emits_cycle_two]
    · have hcb : ¬b.inp = some 50 := fun hh => hca (hinp.trans hh)
      rw [if_neg hca, if_neg hcb]

theorem tOf_eq_specTempCelsius (raw : ℕ) : tOf raw = specTempCelsius raw := by
  unfold tOf bOf r1Of voutOf specTempCelsius specBEffective specResistance
    specOutputVoltage
  norm_num

/-- C1: for every raw ADC sample, the temperature computed by the command
sketch's channel formula (Vout, R1, B, T of lines 45-48, identically lines
34-37 of part_001) equals the spec's four-step reference formula with
supplyVoltage 5.0, seriesResistance 4.7, bCoefficient 3452.9, reference
temperature 298.15 K and divisor constant 10. -/
theorem thermistor_matches_spec (raw : ℕ) : tOf raw = specTempCelsius raw :=
  tOf_eq_specTempCelsius raw

/-- C7: at rawSample 512 the intermediate output voltage is 2.5 V, the
intermediate resistance is 4.7, and the program's temperature equals the
reference evaluation of the spec formula, hence is within 1e-6 relative
error of it. -/
theorem known_value_check :
    voutOf 512 = 2.5 ∧ r1Of 512 = 4.7 ∧
      |tOf 512 - specTempCelsius 512| ≤ 1e-6 * |specTempCelsius 512| := by
  refine ⟨by unfold voutOf; norm_num, by unfold r1Of voutOf; norm_num, ?_⟩
  rw [tOf_eq_specTempCelsius, sub_self, abs_zero]
  positivity

/-- C2: in a cycle whose input byte is '1' (49) exactly one line is
emitted, carrying channel 1's current temperature reading `tOf a0`; in a
cycle whose input byte is '5' (53) exactly one line is emitted, carrying
the latest accelerometer sample (this cycle's poll result on success, else
the stored sample from the last successful poll) as a comma-separated
triple. -/
theorem command_routing_correct (poll : Option Vec3) (a0 a1 : ℕ) (s : St) :
    emitsOf (cycleCmd (some 49) poll a0 a1 s).2 =
      [⟨Payload.temp (tOf a0), true⟩] ∧
    emitsOf (cycleCmd (some 53) poll a0 a1 s).2 =
      [⟨Payload.vecCSV (poll.getD s.accelerometer_value).1
        (poll.getD s.accelerometer_value).2.1
        (poll.getD s.accelerometer_value).2.2, true⟩] :=
  ⟨rfl, rfl⟩

/-- C3: for any input-channel read result other than bytes '1', '2', '5' —
including the no-data sentinel of the non-blocking read — the cycle emits
zero output lines and the dispatch step mutates no program state. -/
theorem command_routing_exhaustive (inp : Option ℕ) (poll : Option Vec3)
    (a0 a1 : ℕ) (s : St) (h1 : inp ≠ some 49) (h2 : inp ≠ some 50)
    (h3 : inp ≠ some 53) :
    emitsOf (cycleCmd inp poll a0 a1 s).2 = [] ∧
    dispatch (sense inp poll a0 a1 s) = (sense inp poll a0 a1 s, []) := by
  have hd : dispatch (sense inp poll a0 a1 s) = (sense inp poll a0 a1 s, []) :=
    dispatch_other _ h1 h2 h3
  exact ⟨by rw [emitsOf_cycleCmd, hd], hd⟩

/-- Witness for C3 at the concrete unrecognized byte 48 ('0'). -/
theorem command_routing_exhaustive_witness :
    emitsOf (cycleCmd (some 48) none 0 0 stInit).2 = [] :=
  (command_routing_exhaustive (some 48) none 0 0 stInit (by decide) (by decide)
    (by decide)).1

/-- C6 counterexample: the continuous JSON sketch src/unnamed/part_001
emits its vector report with `Serial.print`, so at a concrete input its
report line carries no line terminator — refuting the claim that every
report in every configuration is newline-terminated. -/
theorem one_line_per_report_counterexample :
    ((cycleJsonPrint none 512 st1Init).2.all (fun e => e.newline)) = false :=
  rfl

/-- C6 amended: every report of the command sketch and of the continuous
JSON sketch part_000 is one `Serial.println` line (newline-terminated),
but the continuous JSON sketch part_001 emits its single report per cycle
with `Serial.print`, without a line terminator. -/
theorem one_line_per_report_amended (inp : Option ℕ)
    (poll poll0 poll1 : Option Vec3) (a0 a1 b0 : ℕ) (s : St) (s0 : St0)
    (s1 : St1) :
    (emitsOf (cycleCmd inp poll a0 a1 s).2).all (fun e => e.newline) = true ∧
    ((cycleJson poll0 s0).2).all (fun e => e.newline) = true ∧
    ((cycleJsonPrint poll1 b0 s1).2).map Emission.newline = [false] := by
  refine ⟨?_, rfl, rfl⟩
  rw [emitsOf_cycleCmd]
  exact dispatch_emissions_newline _

/-- C8 counterexample: in the command sketch a cycle whose input byte is 48
('0', not a recognized command, in particular not '5') still performs the
accelerometer poll transaction and both thermistor computations, while
emitting nothing — refuting the claim that polling and temperature
computation happen only when a command requires them. -/
theorem conditional_acquisition_counterexample :
    Event.pollAccel ∈ (cycleCmd (some 48) none 0 0 stInit).2 ∧
    Event.computeTemp 1 ∈ (cycleCmd (some 48) none 0 0 stInit).2 ∧
    Event.computeTemp 2 ∈ (cycleCmd (some 48) none 0 0 stInit).2 ∧
    emitsOf (cycleCmd (some 48) none 0 0 stInit).2 = [] := by
  refine ⟨?_, ?_, ?_, rfl⟩
  · show Event.pollAccel ∈
      [Event.pollAccel, Event.computeTemp 1, Event.computeTemp 2]
    simp
  · show Event.computeTemp 1 ∈
      [Event.pollAccel, Event.computeTemp 1, Event.computeTemp 2]
    simp
  · show Event.computeTemp 2 ∈
      [Event.pollAccel, Event.computeTemp 1, Event.computeTemp 2]
    simp

/-- C8 amended: in the command sketch the accelerometer poll transaction
and both thermistor-channel computations occur unconditionally in every
cycle, whatever the input byte; only the output emission is gated on the
command byte (no recognized command, no emission). -/
theorem acquisition_unconditional (inp : Option ℕ) (poll : Option Vec3)
    (a0 a1 : ℕ) (s : St) :
    Event.pollAccel ∈ (cycleCmd inp poll a0 a1 s).2 ∧
    Event.computeTemp 1 ∈ (cycleCmd inp poll a0 a1 s).2 ∧
    Event.computeTemp 2 ∈ (cycleCmd inp poll a0 a1 s).2 ∧
    (inp ≠ some 49 → inp ≠ some 50 → inp ≠ some 53 →
      emitsOf (cycleCmd inp poll a0 a1 s).2 = []) := by
  refine ⟨?_, ?_, ?_, fun h1 h2 h3 => ?_⟩
  · simp [cycleCmd]
  · simp [cycleCmd]
  · simp [cycleCmd]
  · rw [emitsOf_cycleCmd, dispatch_other _ h1 h2 h3]

/-- Witness for C8 amended at concrete inputs. -/
theorem acquisition_unconditional_witness :
    Event.pollAccel ∈ (cycleCmd (some 50) none 3 4 stInit).2 ∧
    emitsOf (cycleCmd (some 48) (some (1, 2, 3)) 5 6 stInit).2 = [] :=
  ⟨(acquisition_unconditional (some 50) none 3 4 stInit).1,
   (acquisition_unconditional (some 48) (some (1, 2, 3)) 5 6 stInit).2.2.2
     (by decide) (by decide) (by decide)⟩

/-- C9: each loop iteration of the command sketch consumes at most one
pending byte from the input buffer (the buffer becomes its tail, so pending
bytes are handled one per subsequent cycle) and emits at most one output
line. -/
theorem one_byte_one_line_per_cycle (buf : List ℕ) (poll : Option Vec3)
    (a0 a1 : ℕ) (s : St) :
    (cycleBuf buf poll a0 a1 s).1 = buf.tail ∧
    buf.length ≤ buf.tail.length + 1 ∧
    (emitsOf (cycleBuf buf poll a0 a1 s).2.2).length ≤ 1 := by
  refine ⟨?_, ?_, ?_⟩
  · cases buf <;> rfl
  · cases buf <;> simp
  · show (emitsOf (cycleCmd (serialRead buf).1 poll a0 a1 s).2).length ≤ 1
    rw [emitsOf_cycleCmd]
    exact dispatch_emissions_len _

/-- C4: after any sequence of cycles, a cycle whose poll transaction fails
(the driver writes nothing) and whose input byte is '5' reports exactly the
accelerometer sample stored by the last successful poll (or the initial
array contents if none succeeded); moreover a failed poll never resets the
stored sample. -/
theorem stale_read (ins : List CycleIn) (s0 : St) (a0 a1 : ℕ) :
    emitsOf (cycleCmd (some 53) none a0 a1 (run ins s0).1).2 =
      [⟨Payload.vecCSV ((lastPoll ins).getD s0.accelerometer_value).1
        ((lastPoll ins).getD s0.accelerometer_value).2.1
        ((lastPoll ins).getD s0.accelerometer_value).2.2, true⟩] ∧
    ∀ inp, (cycleCmd inp none a0 a1 (run ins s0).1).1.accelerometer_value =
      (run ins s0).1.accelerometer_value := by
  constructor
  · rw [← run_accel ins s0]
    rfl
  · intro inp
    rw [cycleCmd_accel]
    rfl

/-- C5: the main loop's behaviour is independent of the initialization
return code: whatever `rc`, the output after the setup phase is the loop's
own emission stream (so thermistor command responses are identical whether
initialization failed or succeeded), and every one of the arbitrarily many
cycles executes its poll transaction (the loop never halts on a failed
init). -/
theorem degraded_mode_stability (rc : ℕ) (ins : List CycleIn) (s : St) :
    List.drop (setup rc).length (programEmissions rc ins s) =
      emitsOf (run ins s).2 ∧
    List.drop (setup rc).length (programEmissions rc ins s) =
      List.drop (setup 0).length (programEmissions 0 ins s) ∧
    List.countP isPoll (run ins s).2 = ins.length := by
  have hdrop : ∀ rc' : ℕ,
      List.drop (setup rc').length (programEmissions rc' ins s) =
        emitsOf (run ins s).2 := by
    intro rc'
    unfold programEmissions
    exact List.drop_left _ _
  exact ⟨hdrop rc, (hdrop rc).trans (hdrop 0).symm, run_countP ins s⟩

/-- C10: the output emitted in response to command '1' depends only on
channel 1's raw ADC samples — two runs from any states whose cycle inputs
agree except on channel 2's raw samples produce identical '1'-responses —
and symmetrically the '2'-responses do not depend on channel 1's samples. -/
theorem channel_noninterference (ins ins' : List CycleIn) (s s' : St) :
    (List.Forall₂ sameButA1 ins ins' → respOf 49 ins s = respOf 49 ins' s') ∧
    (List.Forall₂ sameButA0 ins ins' → respOf 50 ins s = respOf 50 ins' s') :=
  ⟨fun h => respOf_49_eq ins ins' h s s', fun h => respOf_50_eq ins ins' h s s'⟩

/-- Witness for C10: two one-cycle runs that differ only in channel 2's raw
sample give the same '1'-response. -/
theorem channel_noninterference_witness :
    respOf 49 [⟨some 49, none, 512, 7⟩] stInit =
      respOf 49 [⟨some 49, none, 512, 9⟩] stInit :=
  (channel_noninterference [⟨some 49, none, 512, 7⟩] [⟨some 49, none, 512, 9⟩]
    stInit stInit).1 (List.Forall₂.cons ⟨rfl, rfl, rfl⟩ List.Forall₂.nil)

end PubSubSensor
